import Mathlib

/-!
Verification development for the asclepius-backend prediction server
(src/server.js). The server exposes POST /predict behind a multer upload
middleware (image MIME filter, 1 MB size limit), runs a preloaded
classification model on the uploaded image, interprets the scalar score at
a 0.5 threshold, persists one record per successful prediction, and maps
failures to fixed JSON envelopes through a final error middleware. We give
a shallow embedding: each request is a pure function of the incoming
upload and an environment describing the external collaborators (model
reference, image decoder, model inference, database write) for that
request. Real numbers in the source (scores) are modelled as rationals;
the threshold comparison at 0.5 is exact in both.
-/

/-- An uploaded multipart file as multer presents it to the route handler:
MIME type, byte size, and raw buffer (src/server.js lines 55-64). -/
structure FileUpload where
  mimetype : String
  size : Nat
  buffer : List Nat
  deriving Repr, DecidableEq

/-- What the client sends to POST /predict: either no file field, or one
file under the expected field. -/
inductive Incoming where
  | noFile : Incoming
  | file : FileUpload → Incoming
  deriving Repr, DecidableEq

/-- A JavaScript error as seen by the Express error middleware: its
`message` and optional `status` property (plain Errors and MulterErrors
carry no `status`, modelled as `none`). -/
structure JsError where
  message : String
  status : Option Nat
  deriving Repr, DecidableEq

/-- Whether the character list `c` begins with the pattern `p`. -/
def charsStartWith : List Char → List Char → Bool
  | [], _ => true
  | _ :: _, [] => false
  | p :: ps, c :: cs => if p = c then charsStartWith ps cs else false

/-- JavaScript `s.startsWith(pat)`, computed on the underlying character
lists. -/
def strStartsWith (s pat : String) : Bool := charsStartWith pat.data s.data

/-- The multer size limit from src/server.js line 20. -/
def fileSizeLimit : Nat := 1000000

/-- The multer upload stage (src/server.js lines 19-27), run as middleware
before the route handler. `fileFilter` rejects a file whose MIME type does
not start with image/ with `Error('File must be an image')`. The filter is
invoked when the file part header is parsed, before its content streams,
so it fires before the byte-count limit can; a file whose content exceeds
`fileSizeLimit` bytes is then rejected by multer with a MulterError whose
message is File too large. A rejection aborts the request: the error goes
to the error middleware and the route handler never runs. With no file
field the middleware passes and `req.file` is undefined. -/
def multerStage : Incoming → Except JsError (Option FileUpload)
  | .noFile => .ok none
  | .file f =>
    if strStartsWith f.mimetype "image/" then
      if f.size ≤ fileSizeLimit then .ok (some f)
      else .error ⟨"File too large", none⟩
    else .error ⟨"File must be an image", none⟩

/-- A persisted prediction record and, identically shaped, the `data`
payload of the 200 response (src/server.js lines 81-98). -/
structure PredictionRecord where
  id : String
  result : String
  suggestion : String
  createdAt : String
  deriving Repr, DecidableEq

/-- The JSON envelope plus the HTTP status it is sent with. -/
structure Response where
  httpStatus : Nat
  status : String
  message : String
  data : Option PredictionRecord
  deriving Repr, DecidableEq

/-- JavaScript `x || d` for a possibly-absent numeric property (absent and
0 are falsy). -/
def jsOr : Option Nat → Nat → Nat
  | none, d => d
  | some 0, d => d
  | some n, _ => n

/-- The Express error handling middleware (src/server.js lines 124-135):
a dedicated 413 branch for the message File too large, and a generic
branch sending `err.status || 500` with `err.message || 'Internal Server
Error'`. -/
def errorMiddleware (e : JsError) : Response :=
  if e.message = "File too large" then
    ⟨413, "fail", "Payload content length greater than maximum allowed: 1MB", none⟩
  else
    ⟨jsOr e.status 500, "fail",
      if e.message = "" then "Internal Server Error" else e.message, none⟩

/-- Symbolic tensor expressions: the tfjs calls made by the handler
(src/server.js lines 65-68), kept as an AST so the preprocessing pipeline
and its order are visible. -/
inductive Tensor where
  | decodeImage (buffer : List Nat) (channels : Nat)
  | resizeBilinear (t : Tensor) (height width : Nat)
  | expandDims (t : Tensor) (axis : Nat)
  | divScalar (t : Tensor) (denom : ℚ)
  deriving Repr, DecidableEq

/-- The preprocessing pipeline of src/server.js lines 65-68: decode as a
3-channel image, bilinear-resize to 224 by 224, add a leading batch
dimension, divide by 255. -/
def preprocess (buffer : List Nat) : Tensor :=
  Tensor.divScalar
    (Tensor.expandDims
      (Tensor.resizeBilinear (Tensor.decodeImage buffer 3) 224 224) 0) 255

/-- Reading `predictionArray[0][0]` (src/server.js line 73): `none` when
`predictionArray[0]` is undefined (a thrown TypeError in JS); otherwise
`some` of the inner lookup, which is itself `none` when that element is
undefined. -/
def scoreAt00 (arr : List (List ℚ)) : Option (Option ℚ) :=
  (arr.get? 0).map fun row => row.get? 0

/-- JavaScript `x > y` where `x` may be undefined: `undefined > y` is
false. -/
def jsGt (x : Option ℚ) (y : ℚ) : Bool :=
  match x with
  | some v => decide (y < v)
  | none => false

/-- The threshold 0.5 of src/server.js line 73, written as a raw rational
so that the kernel can evaluate comparisons against it; `half_eq_one_div_two`
below checks it is one half. -/
def half : ℚ := ⟨1, 2, by decide, Nat.coprime_one_left 2⟩

/-- The result interpretation of src/server.js line 73:
`predictionArray[0][0] > 0.5 ? 'Cancer' : 'Non-cancer'`. -/
def jsResultOf (s : Option ℚ) : String :=
  if jsGt s half then "Cancer" else "Non-cancer"

/-- The suggestion lookup of src/server.js lines 74-76:
`result === 'Cancer' ? 'Segera periksa ke dokter!' : 'Penyakit kanker
tidak terdeteksi.'`. -/
def suggestionOf (result : String) : String :=
  if result = "Cancer" then "Segera periksa ke dokter!"
  else "Penyakit kanker tidak terdeteksi."

/-- The external collaborators of one /predict request: whether the shared
model reference is set (src/server.js line 31, set on successful load at
line 35), whether `tf.node.decodeImage` succeeds on a given buffer,
the combined `model.predict(...).array()` call (which may throw or
reject), whether the Firestore `set` of a given record succeeds, and the
values produced by `uuidv4()` and `new Date().toISOString()` during the
request. -/
structure PredictEnv where
  modelLoaded : Bool
  decodeOk : List Nat → Bool
  predictFn : Tensor → Except Unit (List (List ℚ))
  dbWriteOk : PredictionRecord → Bool
  uuid : String
  now : String

/-- Response for a request arriving while the model reference is unset
(src/server.js lines 48-53). -/
def modelNotLoadedResponse : Response :=
  ⟨500, "fail", "Model is not loaded yet. Please try again later.", none⟩

/-- Response for a request with no file field (src/server.js
lines 56-61). -/
def fileNotUploadedResponse : Response :=
  ⟨400, "fail", "File not uploaded", none⟩

/-- The catch-all response of the route handler (src/server.js
lines 99-105). -/
def predictionErrorResponse : Response :=
  ⟨500, "fail", "An error occurred during prediction", none⟩

/-- Outcome of one request: the HTTP response, the prediction records
persisted to Firestore during the request, and the tensors fed to
`model.predict`. -/
structure Outcome where
  response : Response
  persisted : List PredictionRecord
  inferred : List Tensor
  deriving Repr, DecidableEq

/-- The POST /predict route handler (src/server.js lines 46-106), given
the file produced by the upload middleware. Checks the model reference,
then file presence; preprocesses the buffer, feeds it to the model, reads
the score at [0][0], interprets it, writes one record keyed by the fresh
UUID, and answers 200 with the same fields. Any exception (decode failure,
inference failure, an undefined `predictionArray[0]`, a failed Firestore
write) is caught and mapped to the generic 500 envelope; a failed write
persists nothing. -/
def predictHandler (env : PredictEnv) (file? : Option FileUpload) : Outcome :=
  if env.modelLoaded = false then ⟨modelNotLoadedResponse, [], []⟩
  else
    match file? with
    | none => ⟨fileNotUploadedResponse, [], []⟩
    | some file =>
      if env.decodeOk file.buffer = false then ⟨predictionErrorResponse, [], []⟩
      else
        let imageTensor := preprocess file.buffer
        match env.predictFn imageTensor with
        | .error _ => ⟨predictionErrorResponse, [], [imageTensor]⟩
        | .ok predictionArray =>
          match scoreAt00 predictionArray with
          | none => ⟨predictionErrorResponse, [], [imageTensor]⟩
          | some s =>
            let result := jsResultOf s
            let suggestion := suggestionOf result
            let record : PredictionRecord := ⟨env.uuid, result, suggestion, env.now⟩
            if env.dbWriteOk record then
              ⟨⟨200, "success", "Prediction successful", some record⟩,
                [record], [imageTensor]⟩
            else ⟨predictionErrorResponse, [], [imageTensor]⟩

/-- One whole POST /predict request: the multer middleware runs first; if
it rejects, the Express error middleware answers and the route handler
never runs; otherwise the route handler answers. -/
def fullPredict (env : PredictEnv) (inc : Incoming) : Outcome :=
  match multerStage inc with
  | .error e => ⟨errorMiddleware e, [], []⟩
  | .ok file? => predictHandler env file?

/-- The 200 response of GET /test-firestore (src/server.js line 116). -/
def firestoreConnectedResponse : Response :=
  ⟨200, "success", "Firestore connected!", none⟩

/-- The GET /test-firestore handler (src/server.js lines 109-121), as a
function of the outcome of the diagnostic document write; on failure the
raw error message is echoed. -/
def testFirestoreHandler (writeResult : Except String Unit) : Response :=
  match writeResult with
  | .ok _ => firestoreConnectedResponse
  | .error msg => ⟨500, "fail", msg, none⟩

/-- A request environment with the model loaded and every collaborator
succeeding; the model answers the score 1 (above threshold). -/
def sampleEnv : PredictEnv :=
  ⟨true, fun _ => true, fun _ => .ok [[1]], fun _ => true, "id-1", "t0"⟩

/-- `sampleEnv` with the model reference unset. -/
def unloadedEnv : PredictEnv :=
  { sampleEnv with modelLoaded := false }

/-- `sampleEnv` with the Firestore write failing. -/
def dbFailEnv : PredictEnv :=
  { sampleEnv with dbWriteOk := fun _ => false }

/-- The raw threshold constant is the rational one half. -/
theorem half_eq_one_div_two : half = 1 / 2 := by
  rw [show half = Rat.mk' 1 2 (by decide) (Nat.coprime_one_left 2) from rfl]
  rw [Rat.mk'_eq_divInt, Rat.divInt_eq_div]
  norm_num

/-- Claim C2: the Result Interpreter is a pure function of the scalar
score; a score strictly above one half yields Cancer, a score at or below
one half (the boundary included) yields Non-cancer; the suggestion is the
static lookup determined by the result, and there are no other classes. -/
theorem result_interpreter_pure_threshold (s : ℚ) :
    half = 1 / 2
    ∧ (1 / 2 < s ↔ jsResultOf (some s) = "Cancer")
    ∧ (s ≤ 1 / 2 ↔ jsResultOf (some s) = "Non-cancer")
    ∧ (jsResultOf (some s) = "Cancer" ∨ jsResultOf (some s) = "Non-cancer")
    ∧ suggestionOf "Cancer" = "Segera periksa ke dokter!"
    ∧ suggestionOf "Non-cancer" = "Penyakit kanker tidak terdeteksi."
    ∧ suggestionOf (jsResultOf (some s)) =
        (if jsResultOf (some s) = "Cancer" then "Segera periksa ke dokter!"
          else "Penyakit kanker tidak terdeteksi.") := by
  have hhalf := half_eq_one_div_two
  unfold jsResultOf jsGt suggestionOf
  rw [hhalf]
  by_cases h : (1 : ℚ) / 2 < s
  · simp [h, not_le.mpr h]
    exact Or.inl (by rwa [one_div] at h)
  · simp [h, not_lt.mp h]
    exact Or.inr (by rw [← one_div]; exact not_lt.mp h)

/-- Witness for C2 at the boundary score: exactly one half is classified
Non-cancer. -/
theorem result_interpreter_pure_threshold_witness :
    jsResultOf (some half) = "Non-cancer" :=
  (result_interpreter_pure_threshold half).2.2.1.mp
    (le_of_eq half_eq_one_div_two)

/-- Claim C3: uploading a file whose MIME type does not start with image/
always yields the fail envelope with HTTP 500 and message File must be an
image, and nothing is persisted or inferred. -/
theorem nonimage_upload_rejected (env : PredictEnv) (f : FileUpload)
    (h : strStartsWith f.mimetype "image/" = false) :
    fullPredict env (.file f) =
      ⟨⟨500, "fail", "File must be an image", none⟩, [], []⟩ := by
  simp [fullPredict, multerStage, h, errorMiddleware, jsOr]

/-- Witness for C3 at a concrete plain-text upload. -/
theorem nonimage_upload_rejected_witness :
    strStartsWith "text/plain" "image/" = false
    ∧ fullPredict sampleEnv (.file ⟨"text/plain", 10, [1]⟩) =
        ⟨⟨500, "fail", "File must be an image", none⟩, [], []⟩ :=
  ⟨by decide, nonimage_upload_rejected sampleEnv ⟨"text/plain", 10, [1]⟩ (by decide)⟩

/-- Claim C7: with the model loaded, a request without a file field
yields HTTP 400 with status fail and message File not uploaded. -/
theorem no_file_uploaded_400 (env : PredictEnv) (h : env.modelLoaded = true) :
    fullPredict env Incoming.noFile = ⟨fileNotUploadedResponse, [], []⟩ := by
  simp [fullPredict, multerStage, predictHandler, h]

/-- Witness for C7 in the all-collaborators-succeed environment. -/
theorem no_file_uploaded_400_witness :
    sampleEnv.modelLoaded = true
    ∧ fullPredict sampleEnv Incoming.noFile = ⟨fileNotUploadedResponse, [], []⟩ :=
  ⟨rfl, no_file_uploaded_400 sampleEnv rfl⟩

/-- Claim C9: GET /test-firestore answers 200 success Firestore
connected! when the diagnostic write succeeds, and 500 fail with the raw
error message when it fails. -/
theorem test_firestore_envelope (w : Except String Unit) :
    (w = .ok () → testFirestoreHandler w =
        ⟨200, "success", "Firestore connected!", none⟩)
    ∧ ∀ m, w = .error m → testFirestoreHandler w = ⟨500, "fail", m, none⟩ := by
  constructor
  · intro h; subst h; rfl
  · intro m h; subst h; rfl

/-- Witness for C9 on a successful write. -/
theorem test_firestore_envelope_witness :
    testFirestoreHandler (.ok ()) = ⟨200, "success", "Firestore connected!", none⟩ :=
  (test_firestore_envelope (.ok ())).1 rfl

/-- Counterexample to claim C5 as stated: an oversized upload whose MIME
type is not an image type is rejected by the MIME filter first, so it
answers 500 File must be an image, not 413 with the payload-size
message. -/
theorem oversize_nonimage_not_413 :
    fileSizeLimit < 2000000
    ∧ (fullPredict sampleEnv (.file ⟨"text/csv", 2000000, [0]⟩)).response =
        ⟨500, "fail", "File must be an image", none⟩
    ∧ (fullPredict sampleEnv (.file ⟨"text/csv", 2000000, [0]⟩)).response.httpStatus ≠ 413
    ∧ (fullPredict sampleEnv (.file ⟨"text/csv", 2000000, [0]⟩)).response.message ≠
        "Payload content length greater than maximum allowed: 1MB" :=
  ⟨by decide, rfl, by decide, by decide⟩

/-- Claim C5 (amended): uploading an image-typed file larger than
1,000,000 bytes yields HTTP 413 with status fail and the exact
payload-size message, and nothing is persisted or inferred. -/
theorem oversize_image_payload_413 (env : PredictEnv) (f : FileUpload)
    (him : strStartsWith f.mimetype "image/" = true)
    (hsz : fileSizeLimit < f.size) :
    fullPredict env (.file f) =
      ⟨⟨413, "fail", "Payload content length greater than maximum allowed: 1MB", none⟩,
        [], []⟩ := by
  have hle : ¬ f.size ≤ fileSizeLimit := not_le.mpr hsz
  simp [fullPredict, multerStage, him, hle, errorMiddleware]

/-- Witness for the amended C5 at a file one byte over the limit. -/
theorem oversize_image_payload_413_witness :
    strStartsWith "image/png" "image/" = true
    ∧ fileSizeLimit < 1000001
    ∧ fullPredict sampleEnv (.file ⟨"image/png", 1000001, []⟩) =
        ⟨⟨413, "fail", "Payload content length greater than maximum allowed: 1MB", none⟩,
          [], []⟩ :=
  ⟨by decide, by decide,
    oversize_image_payload_413 sampleEnv ⟨"image/png", 1000001, []⟩ (by decide) (by decide)⟩

/-- Counterexample to claim C6 as stated: while the model reference is
unset, a request carrying a non-image file is rejected by the upload
middleware, which runs before the route handler, so the response is File
must be an image rather than the model-not-loaded envelope. -/
theorem model_unset_claim_counterexample :
    unloadedEnv.modelLoaded = false
    ∧ (fullPredict unloadedEnv (.file ⟨"text/html", 5, [1]⟩)).response.message =
        "File must be an image"
    ∧ (fullPredict unloadedEnv (.file ⟨"text/html", 5, [1]⟩)).response ≠
        modelNotLoadedResponse :=
  ⟨rfl, rfl, by decide⟩

/-- Claim C6 (amended): while the model reference is unset, every request
that the upload middleware does not reject answers 500 with the
model-not-loaded message and persists nothing; and no request made while
the model is unset ever reaches inference or persists a record. -/
theorem model_unset_predict_amended (env : PredictEnv) (inc : Incoming)
    (h : env.modelLoaded = false) :
    (∀ file?, multerStage inc = .ok file? →
        fullPredict env inc = ⟨modelNotLoadedResponse, [], []⟩)
    ∧ (fullPredict env inc).inferred = []
    ∧ (fullPredict env inc).persisted = [] := by
  constructor
  · intro file? hok
    unfold fullPredict
    rw [hok]
    simp [predictHandler, h]
  · unfold fullPredict
    cases hm : multerStage inc with
    | error e => exact ⟨rfl, rfl⟩
    | ok file? => simp [predictHandler, h]

/-- Witness for the amended C6: a no-file request while the model is
unset. -/
theorem model_unset_predict_amended_witness :
    unloadedEnv.modelLoaded = false
    ∧ fullPredict unloadedEnv Incoming.noFile = ⟨modelNotLoadedResponse, [], []⟩ :=
  ⟨rfl, (model_unset_predict_amended unloadedEnv Incoming.noFile rfl).1 none rfl⟩

/-- Counterexample to claim C10 as stated: while the model reference is
unset, an oversized image upload is answered 413 by the upload middleware
and error middleware, not with the model-not-loaded envelope. -/
theorem readiness_check_claim_counterexample :
    unloadedEnv.modelLoaded = false
    ∧ (fullPredict unloadedEnv (.file ⟨"image/png", 1500000, []⟩)).response.httpStatus = 413
    ∧ (fullPredict unloadedEnv (.file ⟨"image/png", 1500000, []⟩)).response ≠
        modelNotLoadedResponse :=
  ⟨rfl, rfl, by decide⟩

/-- Claim C10 (amended): within the route handler, model readiness is
checked before file presence: while the model is unset, any request the
upload middleware passes through, in particular any request without a
file field, is answered with the model-not-loaded envelope; the 400 File
not uploaded response can only occur once the model is loaded. -/
theorem readiness_before_file_check_amended (env : PredictEnv) (inc : Incoming) :
    (env.modelLoaded = false → ∀ file?, multerStage inc = .ok file? →
        (fullPredict env inc).response = modelNotLoadedResponse)
    ∧ (env.modelLoaded = false →
        (fullPredict env Incoming.noFile).response = modelNotLoadedResponse)
    ∧ ((fullPredict env inc).response = fileNotUploadedResponse →
        env.modelLoaded = true) := by
  refine ⟨?_, ?_, ?_⟩
  · intro h file? hok
    unfold fullPredict
    rw [hok]
    simp [predictHandler, h]
  · intro h
    simp [fullPredict, multerStage, predictHandler, h]
  · intro hresp
    cases h : env.modelLoaded with
    | true => rfl
    | false =>
      exfalso
      cases inc with
      | noFile =>
        simp [fullPredict, multerStage, predictHandler, h,
          modelNotLoadedResponse, fileNotUploadedResponse] at hresp
      | file f =>
        by_cases him : strStartsWith f.mimetype "image/"
        · by_cases hsz : f.size ≤ fileSizeLimit
          · simp [fullPredict, multerStage, him, hsz, predictHandler, h,
              modelNotLoadedResponse, fileNotUploadedResponse] at hresp
          · simp [fullPredict, multerStage, him, hsz, errorMiddleware,
              fileNotUploadedResponse] at hresp
        · simp [fullPredict, multerStage, him, errorMiddleware, jsOr,
            fileNotUploadedResponse] at hresp

/-- Witness for the amended C10: a no-file request while the model is
unset is answered with the model-not-loaded envelope. -/
theorem readiness_before_file_check_amended_witness :
    (fullPredict unloadedEnv Incoming.noFile).response = modelNotLoadedResponse :=
  (readiness_before_file_check_amended unloadedEnv Incoming.noFile).2.1 rfl

/-- Counterexample to claim C4 as stated: the MIME-rejection error
surfaces with its own message File must be an image, not with the route
handler catch-all message An error occurred during prediction. -/
theorem mime_error_message_counterexample :
    (fullPredict sampleEnv (.file ⟨"application/pdf", 10, [0]⟩)).response.message =
      "File must be an image"
    ∧ (fullPredict sampleEnv (.file ⟨"application/pdf", 10, [0]⟩)).response.message ≠
      "An error occurred during prediction" :=
  ⟨rfl, by decide⟩

/-- Claim C4 (amended): the MIME-rejection error has no dedicated branch
in the error middleware; it falls through to the generic branch, which
answers err.status-or-500 with the error message itself, so the response
is 500 with the message File must be an image, and the route handler
catch-all message An error occurred during prediction never appears for
such a request. -/
theorem mime_error_generic_branch (env : PredictEnv) (f : FileUpload)
    (h : strStartsWith f.mimetype "image/" = false) :
    multerStage (.file f) = .error ⟨"File must be an image", none⟩
    ∧ errorMiddleware ⟨"File must be an image", none⟩ =
        ⟨jsOr none 500, "fail", "File must be an image", none⟩
    ∧ (fullPredict env (.file f)).response =
        ⟨500, "fail", "File must be an image", none⟩
    ∧ (fullPredict env (.file f)).response ≠ predictionErrorResponse := by
  refine ⟨?_, by decide, ?_, ?_⟩
  · simp [multerStage, h]
  · simp [fullPredict, multerStage, h, errorMiddleware, jsOr]
  · simp [fullPredict, multerStage, h, errorMiddleware, jsOr, predictionErrorResponse]

/-- Witness for the amended C4 at a concrete video upload. -/
theorem mime_error_generic_branch_witness :
    strStartsWith "video/mp4" "image/" = false
    ∧ multerStage (.file ⟨"video/mp4", 3, []⟩) =
        .error ⟨"File must be an image", none⟩
    ∧ (fullPredict sampleEnv (.file ⟨"video/mp4", 3, []⟩)).response =
        ⟨500, "fail", "File must be an image", none⟩ :=
  ⟨by decide,
    (mime_error_generic_branch sampleEnv ⟨"video/mp4", 3, []⟩ (by decide)).1,
    (mime_error_generic_branch sampleEnv ⟨"video/mp4", 3, []⟩ (by decide)).2.2.1⟩

/-- Counterexample to claim C1 as stated: with a failing Firestore write,
the inference completes successfully (the model is called on the
preprocessed tensor and yields the score 1) yet no record is persisted
and the response is the generic failure, so persistence is not implied by
successful inference. -/
theorem record_iff_inference_counterexample :
    dbFailEnv.predictFn (preprocess [1]) = .ok [[1]]
    ∧ scoreAt00 [[1]] = some (some 1)
    ∧ (fullPredict dbFailEnv (.file ⟨"image/png", 10, [1]⟩)).inferred =
        [preprocess [1]]
    ∧ (fullPredict dbFailEnv (.file ⟨"image/png", 10, [1]⟩)).persisted = []
    ∧ (fullPredict dbFailEnv (.file ⟨"image/png", 10, [1]⟩)).response =
        predictionErrorResponse :=
  ⟨rfl, rfl, rfl, rfl, rfl⟩

/-- Claim C1 (amended): a record is persisted if and only if the request
answers 200; in that case exactly one record is written, keyed by the
freshly generated UUID, its result and suggestion are the interpretation
of the score read from the model output on the preprocessed upload, the
write succeeded, and the 200 data payload equals the persisted record; a
request failing at any stage (model not loaded, missing file, decode
error, inference error, or store-write error) persists no record. -/
theorem record_persisted_iff_200 (env : PredictEnv) (inc : Incoming) :
    ((fullPredict env inc).persisted ≠ [] ↔
        (fullPredict env inc).response.httpStatus = 200)
    ∧ ((fullPredict env inc).response.httpStatus = 200 →
        ∃ r f arr s, inc = .file f
          ∧ env.predictFn (preprocess f.buffer) = .ok arr
          ∧ scoreAt00 arr = some s
          ∧ r = ⟨env.uuid, jsResultOf s, suggestionOf (jsResultOf s), env.now⟩
          ∧ env.dbWriteOk r = true
          ∧ (fullPredict env inc).persisted = [r]
          ∧ (fullPredict env inc).response =
              ⟨200, "success", "Prediction successful", some r⟩) := by
  cases inc with
  | noFile =>
    cases hm : env.modelLoaded <;>
      simp [fullPredict, multerStage, predictHandler, hm,
        modelNotLoadedResponse, fileNotUploadedResponse]
  | file f =>
    by_cases him : strStartsWith f.mimetype "image/"
    · by_cases hsz : f.size ≤ fileSizeLimit
      · cases hm : env.modelLoaded with
        | false =>
          simp [fullPredict, multerStage, him, hsz, predictHandler, hm,
            modelNotLoadedResponse]
        | true =>
          cases hd : env.decodeOk f.buffer with
          | false =>
            simp [fullPredict, multerStage, him, hsz, predictHandler, hm, hd,
              predictionErrorResponse]
          | true =>
            cases hp : env.predictFn (preprocess f.buffer) with
            | error e =>
              simp [fullPredict, multerStage, him, hsz, predictHandler, hm, hd,
                hp, predictionErrorResponse]
            | ok arr =>
              cases hs : scoreAt00 arr with
              | none =>
                simp [fullPredict, multerStage, him, hsz, predictHandler, hm,
                  hd, hp, hs, predictionErrorResponse]
              | some s =>
                cases hw : env.dbWriteOk
                    ⟨env.uuid, jsResultOf s, suggestionOf (jsResultOf s), env.now⟩ with
                | false =>
                  simp [fullPredict, multerStage, him, hsz, predictHandler, hm,
                    hd, hp, hs, hw, predictionErrorResponse]
                | true =>
                  constructor
                  · simp [fullPredict, multerStage, him, hsz, predictHandler,
                      hm, hd, hp, hs, hw]
                  · intro _
                    refine ⟨⟨env.uuid, jsResultOf s, suggestionOf (jsResultOf s),
                      env.now⟩, f, arr, s, rfl, hp, hs, rfl, hw, ?_, ?_⟩ <;>
                      simp [fullPredict, multerStage, him, hsz, predictHandler,
                        hm, hd, hp, hs, hw]
      · simp [fullPredict, multerStage, him, hsz, errorMiddleware]
    · simp [fullPredict, multerStage, him, errorMiddleware, jsOr]

/-- Witness for the amended C1: a fully successful request persists
exactly the record echoed in the 200 payload. -/
theorem record_persisted_iff_200_witness :
    ∃ r f arr s, Incoming.file ⟨"image/png", 10, [1, 2]⟩ = Incoming.file f
      ∧ sampleEnv.predictFn (preprocess f.buffer) = .ok arr
      ∧ scoreAt00 arr = some s
      ∧ r = ⟨sampleEnv.uuid, jsResultOf s, suggestionOf (jsResultOf s), sampleEnv.now⟩
      ∧ sampleEnv.dbWriteOk r = true
      ∧ (fullPredict sampleEnv (.file ⟨"image/png", 10, [1, 2]⟩)).persisted = [r]
      ∧ (fullPredict sampleEnv (.file ⟨"image/png", 10, [1, 2]⟩)).response =
          ⟨200, "success", "Prediction successful", some r⟩ :=
  (record_persisted_iff_200 sampleEnv (.file ⟨"image/png", 10, [1, 2]⟩)).2 rfl

/-- Claim C8: for every accepted upload the handler feeds the model
exactly the tensor decode(buffer, 3 channels) then bilinear-resize to 224
by 224 then leading batch dimension then divide by 255, in that order;
and the score interpreted into the 200 payload is read at position [0][0]
of the model output. -/
theorem preprocess_pipeline_exact (env : PredictEnv) (f : FileUpload)
    (hml : env.modelLoaded = true)
    (him : strStartsWith f.mimetype "image/" = true)
    (hsz : f.size ≤ fileSizeLimit)
    (hd : env.decodeOk f.buffer = true) :
    preprocess f.buffer =
      Tensor.divScalar
        (Tensor.expandDims
          (Tensor.resizeBilinear (Tensor.decodeImage f.buffer 3) 224 224) 0) 255
    ∧ (fullPredict env (.file f)).inferred = [preprocess f.buffer]
    ∧ ∀ arr s, env.predictFn (preprocess f.buffer) = .ok arr →
        scoreAt00 arr = some s →
        env.dbWriteOk ⟨env.uuid, jsResultOf s, suggestionOf (jsResultOf s), env.now⟩
          = true →
        (fullPredict env (.file f)).response.data =
          some ⟨env.uuid, jsResultOf s, suggestionOf (jsResultOf s), env.now⟩ := by
  refine ⟨rfl, ?_, ?_⟩
  · cases hp : env.predictFn (preprocess f.buffer) with
    | error e =>
      simp [fullPredict, multerStage, him, hsz, predictHandler, hml, hd, hp]
    | ok arr =>
      cases hs : scoreAt00 arr with
      | none =>
        simp [fullPredict, multerStage, him, hsz, predictHandler, hml, hd, hp, hs]
      | some s =>
        cases hw : env.dbWriteOk
            ⟨env.uuid, jsResultOf s, suggestionOf (jsResultOf s), env.now⟩ with
        | false =>
          simp [fullPredict, multerStage, him, hsz, predictHandler, hml, hd,
            hp, hs, hw]
        | true =>
          simp [fullPredict, multerStage, him, hsz, predictHandler, hml, hd,
            hp, hs, hw]
  · intro arr s hp hs hw
    simp [fullPredict, multerStage, him, hsz, predictHandler, hml, hd, hp, hs, hw]

/-- Witness for C8 at a concrete accepted upload whose model output is
the single score 1. -/
theorem preprocess_pipeline_exact_witness :
    (fullPredict sampleEnv (.file ⟨"image/png", 4, [7]⟩)).inferred =
      [preprocess [7]]
    ∧ (fullPredict sampleEnv (.file ⟨"image/png", 4, [7]⟩)).response.data =
        some ⟨sampleEnv.uuid, jsResultOf (some 1),
          suggestionOf (jsResultOf (some 1)), sampleEnv.now⟩ :=
  ⟨(preprocess_pipeline_exact sampleEnv ⟨"image/png", 4, [7]⟩ rfl (by decide)
      (by decide) rfl).2.1,
    (preprocess_pipeline_exact sampleEnv ⟨"image/png", 4, [7]⟩ rfl (by decide)
      (by decide) rfl).2.2 [[1]] (some 1) rfl rfl rfl⟩
